import Mathlib

/-!
Verification development for the traefik-plugin-ip2location repository.

Two binary-database readers are embedded shallowly:

* `IP2L` — the IP2Location BIN reader (the `lib.go` / part_006 source):
  metadata header, the static 25-entry per-field position tables, `checkip`,
  `OpenDB` and the binary-search `query`.
* `MMDB` — the minimal MaxMind DB reader (`mmdb.go`): metadata marker
  search, node reads, the trie walk of `LookupIP` and the self-describing
  value decoder `decodeValue`.

Files are modelled as `List Nat` of byte values.  Machine integers are
modelled as `Nat` with explicit `% 2^32` (resp. `% 256`, `% 2^64`) where Go
would wrap.  Fallible reads return `Except String`; loops whose termination
Go does not guarantee take an explicit fuel argument, with `none` (or an
explicit out-of-fuel error) marking an unfinished run.
-/

namespace IP2L

/-- Byte of a file at 0-based index `i`; out-of-range reads give 0
(matching a Go `ReadAt` into a zero-initialised buffer whose error is
ignored; the checked reads below test bounds explicitly instead). -/
def byteAt (f : List Nat) (i : Nat) : Nat := f.getD i 0

/-- Little-endian 32-bit value of the four bytes at 0-based index `i`. -/
def leU32 (f : List Nat) (i : Nat) : Nat :=
  byteAt f i + 256 * byteAt f (i + 1) + 65536 * byteAt f (i + 2) +
    16777216 * byteAt f (i + 3)

/-- Little-endian value of the sixteen bytes at 0-based index `i`. -/
def leU128 (f : List Nat) (i : Nat) : Nat :=
  (List.range 16).foldr (fun k acc => acc * 256 + byteAt f (i + k)) 0

/-- `readuint8` of the source: one byte at the 1-based position `pos`
(`ReadAt` at `pos-1`); errors when the read falls outside the file. -/
def readuint8 (f : List Nat) (pos : Nat) : Except String Nat :=
  if pos ≠ 0 ∧ pos - 1 < f.length then .ok (byteAt f (pos - 1))
  else .error "EOF"

/-- `readuint32` of the source: four little-endian bytes at the 1-based
position `pos` (`ReadAt` at `pos-1`). -/
def readuint32 (f : List Nat) (pos : Nat) : Except String Nat :=
  if pos ≠ 0 ∧ pos - 1 + 4 ≤ f.length then .ok (leU32 f (pos - 1))
  else .error "EOF"

/-- `readuint128` of the source: sixteen little-endian bytes at the
1-based position `pos`. -/
def readuint128 (f : List Nat) (pos : Nat) : Except String Nat :=
  if pos ≠ 0 ∧ pos - 1 + 16 ≤ f.length then .ok (leU128 f (pos - 1))
  else .error "EOF"

/-- `readstr` of the source: a 1-byte length at offset `pos` (note: the
source reads at `pos`, not `pos-1`) followed by that many raw bytes. -/
def readstr (f : List Nat) (pos : Nat) : Except String (List Nat) :=
  if pos < f.length then
    let strlen := byteAt f pos
    if strlen = 0 then .ok []
    else if pos + 1 + strlen ≤ f.length then
      .ok ((List.range strlen).map (fun k => byteAt f (pos + 1 + k)))
    else .error "EOF"
  else .error "EOF"

/-- `readuint32_row` of the source: four little-endian bytes of an
in-memory row slice.  (Go would panic when `pos+4` exceeds the slice; the
claims proved here never exercise that case, reads are zero-padded.) -/
def readuint32_row (row : List Nat) (pos : Nat) : Nat := leU32 row pos

/-- `readfloat_row` of the source returns `math.Float32frombits` of the
four little-endian bytes; the value is modelled by its raw 32 bits. -/
def readfloat_row (row : List Nat) (pos : Nat) : Nat := leU32 row pos

-- Mode bit masks of the source.
def countryshort : Nat := 0x00001
def countrylong : Nat := 0x00002
def region : Nat := 0x00004
def city : Nat := 0x00008
def isp : Nat := 0x00010
def latitude : Nat := 0x00020
def longitude : Nat := 0x00040
def domain : Nat := 0x00080
def zipcode : Nat := 0x00100
def timezone : Nat := 0x00200
def netspeed : Nat := 0x00400
def iddcode : Nat := 0x00800
def areacode : Nat := 0x01000
def weatherstationcode : Nat := 0x02000
def weatherstationname : Nat := 0x04000
def mcc : Nat := 0x08000
def mnc : Nat := 0x10000
def mobilebrand : Nat := 0x20000
def elevation : Nat := 0x40000
def usagetype : Nat := 0x80000

def all : Nat :=
  countryshort ||| countrylong ||| region ||| city ||| isp ||| latitude |||
  longitude ||| domain ||| zipcode ||| timezone ||| netspeed ||| iddcode |||
  areacode ||| weatherstationcode ||| weatherstationname ||| mcc ||| mnc |||
  mobilebrand ||| elevation ||| usagetype

def invalid_address : String := "Invalid IP address."
def missing_file : String := "Invalid database file."

-- Address-range constants of the source (`big.NewInt` / `SetString`).
def max_ipv4_range : Nat := 4294967295
def max_ipv6_range : Nat := 340282366920938463463374607431768211455
def from_v4mapped : Nat := 281470681743360
def to_v4mapped : Nat := 281474976710655
def from_6to4 : Nat := 42545680458834377588178886921629466624
def to_6to4 : Nat := 42550872755692912415807417417958686719
def from_teredo : Nat := 42540488161975842760550356425300246528
def to_teredo : Nat := 42540488241204005274814694018844196863
def last_32bits : Nat := 4294967295

-- The 25-entry static position tables of the source.
def country_position : List Nat :=
  [0, 2, 2, 2, 2, 2, 2, 2, 2, 2, 2, 2, 2, 2, 2, 2, 2, 2, 2, 2, 2, 2, 2, 2, 2]
def region_position : List Nat :=
  [0, 0, 0, 3, 3, 3, 3, 3, 3, 3, 3, 3, 3, 3, 3, 3, 3, 3, 3, 3, 3, 3, 3, 3, 3]
def city_position : List Nat :=
  [0, 0, 0, 4, 4, 4, 4, 4, 4, 4, 4, 4, 4, 4, 4, 4, 4, 4, 4, 4, 4, 4, 4, 4, 4]
def isp_position : List Nat :=
  [0, 0, 3, 0, 5, 0, 7, 5, 7, 0, 8, 0, 9, 0, 9, 0, 9, 0, 9, 7, 9, 0, 9, 7, 9]
def latitude_position : List Nat :=
  [0, 0, 0, 0, 0, 5, 5, 0, 5, 5, 5, 5, 5, 5, 5, 5, 5, 5, 5, 5, 5, 5, 5, 5, 5]
def longitude_position : List Nat :=
  [0, 0, 0, 0, 0, 6, 6, 0, 6, 6, 6, 6, 6, 6, 6, 6, 6, 6, 6, 6, 6, 6, 6, 6, 6]
def domain_position : List Nat :=
  [0, 0, 0, 0, 0, 0, 0, 6, 8, 0, 9, 0, 10, 0, 10, 0, 10, 0, 10, 8, 10, 0, 10, 8, 10]
def zipcode_position : List Nat :=
  [0, 0, 0, 0, 0, 0, 0, 0, 0, 7, 7, 7, 7, 0, 7, 7, 7, 0, 7, 0, 7, 7, 7, 0, 7]
def timezone_position : List Nat :=
  [0, 0, 0, 0, 0, 0, 0, 0, 0, 0, 0, 8, 8, 7, 8, 8, 8, 7, 8, 0, 8, 8, 8, 0, 8]
def netspeed_position : List Nat :=
  [0, 0, 0, 0, 0, 0, 0, 0, 0, 0, 0, 0, 0, 8, 11, 0, 11, 8, 11, 0, 11, 0, 11, 0, 11]
def iddcode_position : List Nat :=
  [0, 0, 0, 0, 0, 0, 0, 0, 0, 0, 0, 0, 0, 0, 0, 9, 12, 0, 12, 0, 12, 9, 12, 0, 12]
def areacode_position : List Nat :=
  [0, 0, 0, 0, 0, 0, 0, 0, 0, 0, 0, 0, 0, 0, 0, 10, 13, 0, 13, 0, 13, 10, 13, 0, 13]
def weatherstationcode_position : List Nat :=
  [0, 0, 0, 0, 0, 0, 0, 0, 0, 0, 0, 0, 0, 0, 0, 0, 0, 9, 14, 0, 14, 0, 14, 0, 14]
def weatherstationname_position : List Nat :=
  [0, 0, 0, 0, 0, 0, 0, 0, 0, 0, 0, 0, 0, 0, 0, 0, 0, 10, 15, 0, 15, 0, 15, 0, 15]
def mcc_position : List Nat :=
  [0, 0, 0, 0, 0, 0, 0, 0, 0, 0, 0, 0, 0, 0, 0, 0, 0, 0, 0, 9, 16, 0, 16, 9, 16]
def mnc_position : List Nat :=
  [0, 0, 0, 0, 0, 0, 0, 0, 0, 0, 0, 0, 0, 0, 0, 0, 0, 0, 0, 10, 17, 0, 17, 10, 17]
def mobilebrand_position : List Nat :=
  [0, 0, 0, 0, 0, 0, 0, 0, 0, 0, 0, 0, 0, 0, 0, 0, 0, 0, 0, 11, 18, 0, 18, 11, 18]
def elevation_position : List Nat :=
  [0, 0, 0, 0, 0, 0, 0, 0, 0, 0, 0, 0, 0, 0, 0, 0, 0, 0, 0, 0, 0, 11, 19, 0, 19]
def usagetype_position : List Nat :=
  [0, 0, 0, 0, 0, 0, 0, 0, 0, 0, 0, 0, 0, 0, 0, 0, 0, 0, 0, 0, 0, 0, 0, 12, 20]

/-- `ip2locationmeta` of the source. -/
structure Ip2Meta where
  databasetype : Nat := 0
  databasecolumn : Nat := 0
  databaseday : Nat := 0
  databasemonth : Nat := 0
  databaseyear : Nat := 0
  ipv4databasecount : Nat := 0
  ipv4databaseaddr : Nat := 0
  ipv6databasecount : Nat := 0
  ipv6databaseaddr : Nat := 0
  ipv4indexbaseaddr : Nat := 0
  ipv6indexbaseaddr : Nat := 0
  ipv4columnsize : Nat := 0
  ipv6columnsize : Nat := 0
  deriving Repr, DecidableEq

/-- The `DB` struct of the source: metadata, per-field row offsets and
enabled flags. -/
structure DB where
  meta : Ip2Meta := {}
  country_position_offset : Nat := 0
  region_position_offset : Nat := 0
  city_position_offset : Nat := 0
  isp_position_offset : Nat := 0
  domain_position_offset : Nat := 0
  zipcode_position_offset : Nat := 0
  latitude_position_offset : Nat := 0
  longitude_position_offset : Nat := 0
  timezone_position_offset : Nat := 0
  netspeed_position_offset : Nat := 0
  iddcode_position_offset : Nat := 0
  areacode_position_offset : Nat := 0
  weatherstationcode_position_offset : Nat := 0
  weatherstationname_position_offset : Nat := 0
  mcc_position_offset : Nat := 0
  mnc_position_offset : Nat := 0
  mobilebrand_position_offset : Nat := 0
  elevation_position_offset : Nat := 0
  usagetype_position_offset : Nat := 0
  country_enabled : Bool := false
  region_enabled : Bool := false
  city_enabled : Bool := false
  isp_enabled : Bool := false
  domain_enabled : Bool := false
  zipcode_enabled : Bool := false
  latitude_enabled : Bool := false
  longitude_enabled : Bool := false
  timezone_enabled : Bool := false
  netspeed_enabled : Bool := false
  iddcode_enabled : Bool := false
  areacode_enabled : Bool := false
  weatherstationcode_enabled : Bool := false
  weatherstationname_enabled : Bool := false
  mcc_enabled : Bool := false
  mnc_enabled : Bool := false
  mobilebrand_enabled : Bool := false
  elevation_enabled : Bool := false
  usagetype_enabled : Bool := false
  metaok : Bool := false
  deriving Repr, DecidableEq

/-- `IP2Locationrecord` of the source.  Strings are byte lists; the
`float32` fields `Latitude`, `Longitude` and `Elevation` are modelled by
their raw 32 bits. -/
structure IP2Locationrecord where
  Country_short : List Nat := []
  Country_long : List Nat := []
  Region : List Nat := []
  City : List Nat := []
  Isp : List Nat := []
  Latitude : Nat := 0
  Longitude : Nat := 0
  Domain : List Nat := []
  Zipcode : List Nat := []
  Timezone : List Nat := []
  Netspeed : List Nat := []
  Iddcode : List Nat := []
  Areacode : List Nat := []
  Weatherstationcode : List Nat := []
  Weatherstationname : List Nat := []
  Mcc : List Nat := []
  Mnc : List Nat := []
  Mobilebrand : List Nat := []
  Elevation : Nat := 0
  Usagetype : List Nat := []
  deriving Repr, DecidableEq

/-- The zero-valued record `x := IP2Locationrecord{}` of `query`. -/
def emptyRecord : IP2Locationrecord := {}

/-- Result of `net.ParseIP` as consumed by `checkip`: either an address
with a non-nil `To4()` (a 32-bit value) or a full 16-byte IPv6 address
(a 128-bit value).  `none` models a failed parse. -/
inductive ParsedIP where
  | v4 (n : Nat)
  | v6 (n : Nat)
  deriving Repr, DecidableEq

/-- Result triple of `checkip`. -/
structure CheckIP where
  iptype : Nat
  ipnum : Nat
  ipindex : Nat
  deriving Repr, DecidableEq

/-- `checkip` of the source: classify the parsed address, remap
IPv4-mapped / 6to4 / Teredo IPv6 addresses to 32-bit IPv4 keys, and
compute the index-table offset when an index base address is present.
`Rsh k` is division by `2^k`, `And last_32bits` is `% 2^32`, and the
`Not`-then-`And` of the Teredo branch complements the low 32 bits. -/
def checkip (d : DB) (p : Option ParsedIP) : CheckIP :=
  let base : CheckIP :=
    match p with
    | none => ⟨0, 0, 0⟩
    | some (.v4 n) => ⟨4, n, 0⟩
    | some (.v6 n) =>
      if from_v4mapped ≤ n ∧ n ≤ to_v4mapped then ⟨4, n - from_v4mapped, 0⟩
      else if from_6to4 ≤ n ∧ n ≤ to_6to4 then ⟨4, n / 2 ^ 80 % 2 ^ 32, 0⟩
      else if from_teredo ≤ n ∧ n ≤ to_teredo then
        ⟨4, (2 ^ 32 - 1) - n % 2 ^ 32, 0⟩
      else ⟨6, n, 0⟩
  if base.iptype = 4 then
    if 0 < d.meta.ipv4indexbaseaddr then
      { base with
        ipindex := (base.ipnum / 2 ^ 16 * 8 + d.meta.ipv4indexbaseaddr) % 2 ^ 32 }
    else base
  else if base.iptype = 6 then
    if 0 < d.meta.ipv6indexbaseaddr then
      { base with
        ipindex := (base.ipnum / 2 ^ 112 * 8 + d.meta.ipv6indexbaseaddr) % 2 ^ 32 }
    else base
  else base

/-- The header-reading half of `OpenDB`: eleven sequential checked reads
(positions 1..26) and the two column-size computations.  `databasecolumn`
is a `uint8`, so `databasecolumn << 2` and `16 + ((databasecolumn-1) << 2)`
wrap modulo 256 before the widening `uint32` conversion. -/
def readHeader (f : List Nat) : Except String Ip2Meta := do
  let dbt ← readuint8 f 1
  let col ← readuint8 f 2
  let yr ← readuint8 f 3
  let mo ← readuint8 f 4
  let dy ← readuint8 f 5
  let c4 ← readuint32 f 6
  let a4 ← readuint32 f 10
  let c6 ← readuint32 f 14
  let a6 ← readuint32 f 18
  let i4 ← readuint32 f 22
  let i6 ← readuint32 f 26
  pure
    { databasetype := dbt, databasecolumn := col,
      databaseyear := yr, databasemonth := mo, databaseday := dy,
      ipv4databasecount := c4, ipv4databaseaddr := a4,
      ipv6databasecount := c6, ipv6databaseaddr := a6,
      ipv4indexbaseaddr := i4, ipv6indexbaseaddr := i6,
      ipv4columnsize := col * 4 % 256,
      ipv6columnsize := (16 + (col + 255) % 256 * 4 % 256) % 256 }

/-- Per-field offset computation of `OpenDB`:
`uint32(cell - 2) << 2` (every non-zero table cell is at least 2). -/
def posOffset (cell : Nat) : Nat := (cell - 2) * 4

/-- The `DB` value `OpenDB` builds from a decoded header: the nineteen
sequential `if table[dbt] != 0` statements of the source, each setting one
offset and one enabled flag on the zero-initialised struct. -/
def mkDB (m : Ip2Meta) : DB :=
  let dbt := m.databasetype
  let cCountry := country_position.getD dbt 0
  let cRegion := region_position.getD dbt 0
  let cCity := city_position.getD dbt 0
  let cIsp := isp_position.getD dbt 0
  let cDomain := domain_position.getD dbt 0
  let cZip := zipcode_position.getD dbt 0
  let cLat := latitude_position.getD dbt 0
  let cLong := longitude_position.getD dbt 0
  let cTz := timezone_position.getD dbt 0
  let cNet := netspeed_position.getD dbt 0
  let cIdd := iddcode_position.getD dbt 0
  let cArea := areacode_position.getD dbt 0
  let cWsc := weatherstationcode_position.getD dbt 0
  let cWsn := weatherstationname_position.getD dbt 0
  let cMcc := mcc_position.getD dbt 0
  let cMnc := mnc_position.getD dbt 0
  let cMob := mobilebrand_position.getD dbt 0
  let cElev := elevation_position.getD dbt 0
  let cUse := usagetype_position.getD dbt 0
  { meta := m
    country_position_offset := if cCountry ≠ 0 then posOffset cCountry else 0
    country_enabled := cCountry ≠ 0
    region_position_offset := if cRegion ≠ 0 then posOffset cRegion else 0
    region_enabled := cRegion ≠ 0
    city_position_offset := if cCity ≠ 0 then posOffset cCity else 0
    city_enabled := cCity ≠ 0
    isp_position_offset := if cIsp ≠ 0 then posOffset cIsp else 0
    isp_enabled := cIsp ≠ 0
    domain_position_offset := if cDomain ≠ 0 then posOffset cDomain else 0
    domain_enabled := cDomain ≠ 0
    zipcode_position_offset := if cZip ≠ 0 then posOffset cZip else 0
    zipcode_enabled := cZip ≠ 0
    latitude_position_offset := if cLat ≠ 0 then posOffset cLat else 0
    latitude_enabled := cLat ≠ 0
    longitude_position_offset := if cLong ≠ 0 then posOffset cLong else 0
    longitude_enabled := cLong ≠ 0
    timezone_position_offset := if cTz ≠ 0 then posOffset cTz else 0
    timezone_enabled := cTz ≠ 0
    netspeed_position_offset := if cNet ≠ 0 then posOffset cNet else 0
    netspeed_enabled := cNet ≠ 0
    iddcode_position_offset := if cIdd ≠ 0 then posOffset cIdd else 0
    iddcode_enabled := cIdd ≠ 0
    areacode_position_offset := if cArea ≠ 0 then posOffset cArea else 0
    areacode_enabled := cArea ≠ 0
    weatherstationcode_position_offset := if cWsc ≠ 0 then posOffset cWsc else 0
    weatherstationcode_enabled := cWsc ≠ 0
    weatherstationname_position_offset := if cWsn ≠ 0 then posOffset cWsn else 0
    weatherstationname_enabled := cWsn ≠ 0
    mcc_position_offset := if cMcc ≠ 0 then posOffset cMcc else 0
    mcc_enabled := cMcc ≠ 0
    mnc_position_offset := if cMnc ≠ 0 then posOffset cMnc else 0
    mnc_enabled := cMnc ≠ 0
    mobilebrand_position_offset := if cMob ≠ 0 then posOffset cMob else 0
    mobilebrand_enabled := cMob ≠ 0
    elevation_position_offset := if cElev ≠ 0 then posOffset cElev else 0
    elevation_enabled := cElev ≠ 0
    usagetype_position_offset := if cUse ≠ 0 then posOffset cUse else 0
    usagetype_enabled := cUse ≠ 0
    metaok := true }

/-- Total outcome of `OpenDB`.  The `panic` constructor models a Go
runtime panic: the source indexes the fixed `[25]uint8` position tables
with the raw `databasetype` byte and has no bounds check, so a type byte
of 25 or more panics instead of returning an error. -/
inductive OpenResult where
  | ok (db : DB)
  | err (e : String)
  | panic
  deriving Repr, DecidableEq

/-- `OpenDB` of the source (file opening aside): read the header, then
build the `DB` from the position tables.  The `dbt < 25` guard is the
bound of the table accesses, not a check present in the code. -/
def OpenDB (f : List Nat) : OpenResult :=
  match readHeader f with
  | .error e => .err e
  | .ok m => if m.databasetype < 25 then .ok (mkDB m) else .panic

/-- The geolocation fields of a record, in the order `query` fills them. -/
inductive Field where
  | country_short | country_long | region | city | isp
  | latitude | longitude | domain | zipcode | timezone
  | netspeed | iddcode | areacode | weatherstationcode | weatherstationname
  | mcc | mnc | mobilebrand | elevation | usagetype
  deriving Repr, DecidableEq

/-- A decoded field value: a byte-list string or raw float32 bits. -/
inductive FieldVal where
  | s (v : List Nat)
  | fbits (v : Nat)
  deriving Repr, DecidableEq

def fieldOrder : List Field :=
  [.country_short, .country_long, .region, .city, .isp,
   .latitude, .longitude, .domain, .zipcode, .timezone,
   .netspeed, .iddcode, .areacode, .weatherstationcode, .weatherstationname,
   .mcc, .mnc, .mobilebrand, .elevation, .usagetype]

/-- The static position table governing a field (`country_short` and
`country_long` share `country_position`). -/
def positionTableOf : Field → List Nat
  | .country_short => country_position
  | .country_long => country_position
  | .region => region_position
  | .city => city_position
  | .isp => isp_position
  | .latitude => latitude_position
  | .longitude => longitude_position
  | .domain => domain_position
  | .zipcode => zipcode_position
  | .timezone => timezone_position
  | .netspeed => netspeed_position
  | .iddcode => iddcode_position
  | .areacode => areacode_position
  | .weatherstationcode => weatherstationcode_position
  | .weatherstationname => weatherstationname_position
  | .mcc => mcc_position
  | .mnc => mnc_position
  | .mobilebrand => mobilebrand_position
  | .elevation => elevation_position
  | .usagetype => usagetype_position

/-- The enabled flag of `DB` governing a field. -/
def enabledOf (d : DB) : Field → Bool
  | .country_short => d.country_enabled
  | .country_long => d.country_enabled
  | .region => d.region_enabled
  | .city => d.city_enabled
  | .isp => d.isp_enabled
  | .latitude => d.latitude_enabled
  | .longitude => d.longitude_enabled
  | .domain => d.domain_enabled
  | .zipcode => d.zipcode_enabled
  | .timezone => d.timezone_enabled
  | .netspeed => d.netspeed_enabled
  | .iddcode => d.iddcode_enabled
  | .areacode => d.areacode_enabled
  | .weatherstationcode => d.weatherstationcode_enabled
  | .weatherstationname => d.weatherstationname_enabled
  | .mcc => d.mcc_enabled
  | .mnc => d.mnc_enabled
  | .mobilebrand => d.mobilebrand_enabled
  | .elevation => d.elevation_enabled
  | .usagetype => d.usagetype_enabled

/-- The guard of each field-decoding `if` in `query`'s match branch.
The `country_short` guard is the source's literal `mode&countryshort == 1`;
all other guards test `!= 0`. -/
def fieldGuard (d : DB) (mode : Nat) : Field → Bool
  | .country_short => (mode &&& countryshort == 1) && d.country_enabled
  | .country_long => (mode &&& countrylong != 0) && d.country_enabled
  | .region => (mode &&& region != 0) && d.region_enabled
  | .city => (mode &&& city != 0) && d.city_enabled
  | .isp => (mode &&& isp != 0) && d.isp_enabled
  | .latitude => (mode &&& latitude != 0) && d.latitude_enabled
  | .longitude => (mode &&& longitude != 0) && d.longitude_enabled
  | .domain => (mode &&& domain != 0) && d.domain_enabled
  | .zipcode => (mode &&& zipcode != 0) && d.zipcode_enabled
  | .timezone => (mode &&& timezone != 0) && d.timezone_enabled
  | .netspeed => (mode &&& netspeed != 0) && d.netspeed_enabled
  | .iddcode => (mode &&& iddcode != 0) && d.iddcode_enabled
  | .areacode => (mode &&& areacode != 0) && d.areacode_enabled
  | .weatherstationcode =>
    (mode &&& weatherstationcode != 0) && d.weatherstationcode_enabled
  | .weatherstationname =>
    (mode &&& weatherstationname != 0) && d.weatherstationname_enabled
  | .mcc => (mode &&& mcc != 0) && d.mcc_enabled
  | .mnc => (mode &&& mnc != 0) && d.mnc_enabled
  | .mobilebrand => (mode &&& mobilebrand != 0) && d.mobilebrand_enabled
  | .elevation => (mode &&& elevation != 0) && d.elevation_enabled
  | .usagetype => (mode &&& usagetype != 0) && d.usagetype_enabled

/-- The read expression of each field in `query`'s match branch.  String
fields follow a row pointer with `readstr`; `country_long` reads at the
country pointer plus 3 (`uint32` addition); latitude and longitude read
float bits straight from the row; elevation parses the decoded string
with `strconv.ParseFloat`, abstracted by the parameter `pf`. -/
def fieldRead (d : DB) (f row : List Nat) (pf : List Nat → Nat) :
    Field → Except String FieldVal
  | .country_short =>
    (readstr f (readuint32_row row d.country_position_offset)).map .s
  | .country_long =>
    (readstr f ((readuint32_row row d.country_position_offset + 3) % 2 ^ 32)).map .s
  | .region => (readstr f (readuint32_row row d.region_position_offset)).map .s
  | .city => (readstr f (readuint32_row row d.city_position_offset)).map .s
  | .isp => (readstr f (readuint32_row row d.isp_position_offset)).map .s
  | .latitude => .ok (.fbits (readfloat_row row d.latitude_position_offset))
  | .longitude => .ok (.fbits (readfloat_row row d.longitude_position_offset))
  | .domain => (readstr f (readuint32_row row d.domain_position_offset)).map .s
  | .zipcode => (readstr f (readuint32_row row d.zipcode_position_offset)).map .s
  | .timezone => (readstr f (readuint32_row row d.timezone_position_offset)).map .s
  | .netspeed => (readstr f (readuint32_row row d.netspeed_position_offset)).map .s
  | .iddcode => (readstr f (readuint32_row row d.iddcode_position_offset)).map .s
  | .areacode => (readstr f (readuint32_row row d.areacode_position_offset)).map .s
  | .weatherstationcode =>
    (readstr f (readuint32_row row d.weatherstationcode_position_offset)).map .s
  | .weatherstationname =>
    (readstr f (readuint32_row row d.weatherstationname_position_offset)).map .s
  | .mcc => (readstr f (readuint32_row row d.mcc_position_offset)).map .s
  | .mnc => (readstr f (readuint32_row row d.mnc_position_offset)).map .s
  | .mobilebrand =>
    (readstr f (readuint32_row row d.mobilebrand_position_offset)).map .s
  | .elevation =>
    (readstr f (readuint32_row row d.elevation_position_offset)).map
      (fun s => .fbits (pf s))
  | .usagetype =>
    (readstr f (readuint32_row row d.usagetype_position_offset)).map .s

/-- Store a decoded value into its record field. -/
def applyField (x : IP2Locationrecord) : Field → FieldVal → IP2Locationrecord
  | .country_short, .s v => { x with Country_short := v }
  | .country_long, .s v => { x with Country_long := v }
  | .region, .s v => { x with Region := v }
  | .city, .s v => { x with City := v }
  | .isp, .s v => { x with Isp := v }
  | .latitude, .fbits v => { x with Latitude := v }
  | .longitude, .fbits v => { x with Longitude := v }
  | .domain, .s v => { x with Domain := v }
  | .zipcode, .s v => { x with Zipcode := v }
  | .timezone, .s v => { x with Timezone := v }
  | .netspeed, .s v => { x with Netspeed := v }
  | .iddcode, .s v => { x with Iddcode := v }
  | .areacode, .s v => { x with Areacode := v }
  | .weatherstationcode, .s v => { x with Weatherstationcode := v }
  | .weatherstationname, .s v => { x with Weatherstationname := v }
  | .mcc, .s v => { x with Mcc := v }
  | .mnc, .s v => { x with Mnc := v }
  | .mobilebrand, .s v => { x with Mobilebrand := v }
  | .elevation, .fbits v => { x with Elevation := v }
  | .usagetype, .s v => { x with Usagetype := v }
  | _, _ => x

/-- Project a record field. -/
def getField (x : IP2Locationrecord) : Field → FieldVal
  | .country_short => .s x.Country_short
  | .country_long => .s x.Country_long
  | .region => .s x.Region
  | .city => .s x.City
  | .isp => .s x.Isp
  | .latitude => .fbits x.Latitude
  | .longitude => .fbits x.Longitude
  | .domain => .s x.Domain
  | .zipcode => .s x.Zipcode
  | .timezone => .s x.Timezone
  | .netspeed => .s x.Netspeed
  | .iddcode => .s x.Iddcode
  | .areacode => .s x.Areacode
  | .weatherstationcode => .s x.Weatherstationcode
  | .weatherstationname => .s x.Weatherstationname
  | .mcc => .s x.Mcc
  | .mnc => .s x.Mnc
  | .mobilebrand => .s x.Mobilebrand
  | .elevation => .fbits x.Elevation
  | .usagetype => .s x.Usagetype

/-- The field-decoding block of `query`'s match branch: starting from the
zero record, run each guarded read in source order, aborting on the first
read error exactly as the source's early returns do. -/
def readRecordFields (d : DB) (f row : List Nat) (mode : Nat)
    (pf : List Nat → Nat) : Except String IP2Locationrecord :=
  fieldOrder.foldlM
    (fun x fld =>
      if fieldGuard d mode fld then do
        let v ← fieldRead d f row pf fld
        pure (applyField x fld v)
      else pure x)
    emptyRecord

/-- The key adjustment of `query`: a key equal to (or, impossibly, above)
the table's maximum representable value is decremented by one before the
search. -/
def adjustKey (maxip ipno : Nat) : Nat :=
  if maxip ≤ ipno then ipno - 1 else ipno

/-- Table parameters `query` selects by address family:
`(baseaddr, row count, maximum address, column size)`. -/
def selectParams (d : DB) (iptype : Nat) : Nat × Nat × Nat × Nat :=
  if iptype = 4 then
    (d.meta.ipv4databaseaddr, d.meta.ipv4databasecount, max_ipv4_range,
      d.meta.ipv4columnsize)
  else
    (d.meta.ipv6databaseaddr, d.meta.ipv6databasecount, max_ipv6_range,
      d.meta.ipv6columnsize)

/-- The index-table narrowing of `query`: when `checkip` produced a
non-zero index offset, the initial `[low, high]` window is read from the
two 32-bit values stored there; otherwise it is `[0, row count]`. -/
def indexWindow (f : List Nat) (ipindex high0 : Nat) :
    Except String (Nat × Nat) :=
  if 0 < ipindex then do
    let low ← readuint32 f ipindex
    let high ← readuint32 f ((ipindex + 4) % 2 ^ 32)
    pure (low, high)
  else .ok (0, high0)

/-- The binary-search loop of `query` over `uint32` bounds (all bound
arithmetic wraps modulo `2^32` as in Go).  Returns the matching row index
`mid`, `none` when the window is exhausted (`low > high`), an error when a
range read fails, and the outer `Option.none` when the fuel runs out
before the loop exits (Go would still be iterating). -/
def queryLoop (f : List Nat) (iptype ipno colsize baseaddr : Nat) :
    Nat → Nat → Nat → Option (Except String (Option Nat))
  | 0, _, _ => none
  | fuel + 1, low, high =>
    if low ≤ high then
      let mid := (low + high) % 2 ^ 32 / 2
      let rowoffset := (baseaddr + mid * colsize) % 2 ^ 32
      let rowoffset2 := (rowoffset + colsize) % 2 ^ 32
      let ranges : Except String (Nat × Nat) :=
        if iptype = 4 then do
          let a ← readuint32 f rowoffset
          let b ← readuint32 f rowoffset2
          pure (a, b)
        else do
          let a ← readuint128 f rowoffset
          let b ← readuint128 f rowoffset2
          pure (a, b)
      match ranges with
      | .error e => some (.error e)
      | .ok (ipfrom, ipto) =>
        if ipfrom ≤ ipno ∧ ipno < ipto then some (.ok (some mid))
        else if ipno < ipfrom then
          queryLoop f iptype ipno colsize baseaddr fuel low
            ((mid + 2 ^ 32 - 1) % 2 ^ 32)
        else
          queryLoop f iptype ipno colsize baseaddr fuel ((mid + 1) % 2 ^ 32)
            high
    else some (.ok none)

/-- Read the row slice of the matching record: `colsize - firstcol` bytes
at file offset `rowoffset + firstcol - 1` (0-based). -/
def readRow (f : List Nat) (rowoffset firstcol colsize : Nat) :
    Except String (List Nat) :=
  let n := colsize - firstcol
  let start := (rowoffset + firstcol + 2 ^ 32 - 1) % 2 ^ 32
  if n = 0 then .ok []
  else if start + n ≤ f.length then
    .ok ((List.range n).map (fun k => byteAt f (start + k)))
  else .error "EOF"

/-- `query` of the source.  `p` is the `net.ParseIP` result of the input
string, `pf` abstracts `strconv.ParseFloat` (elevation only), and `fuel`
bounds the binary-search loop; `none` means the loop was still running. -/
def query (d : DB) (f : List Nat) (p : Option ParsedIP) (mode : Nat)
    (pf : List Nat → Nat) (fuel : Nat) :
    Option (Except String IP2Locationrecord) :=
  if d.metaok = false then some (.error missing_file)
  else
    let c := checkip d p
    if c.iptype = 0 then some (.error invalid_address)
    else
      let ps := selectParams d c.iptype
      let baseaddr := ps.1
      let high0 := ps.2.1
      let maxip := ps.2.2.1
      let colsize := ps.2.2.2
      match indexWindow f c.ipindex high0 with
      | .error e => some (.error e)
      | .ok (low0, high1) =>
        let ipno := adjustKey maxip c.ipnum
        match queryLoop f c.iptype ipno colsize baseaddr fuel low0 high1 with
        | none => none
        | some (.error e) => some (.error e)
        | some (.ok none) => some (.ok emptyRecord)
        | some (.ok (some mid)) =>
          let rowoffset := (baseaddr + mid * colsize) % 2 ^ 32
          let firstcol := if c.iptype = 4 then 4 else 16
          match readRow f rowoffset firstcol colsize with
          | .error e => some (.error e)
          | .ok row =>
            match readRecordFields d f row mode pf with
            | .error e => some (.error e)
            | .ok x => some (.ok x)

/-- `Get_all` of the source: `query` with every mode bit set. -/
def Get_all (d : DB) (f : List Nat) (p : Option ParsedIP)
    (pf : List Nat → Nat) (fuel : Nat) :
    Option (Except String IP2Locationrecord) :=
  query d f p all pf fuel

end IP2L

namespace MMDB

/-- Byte of a file at 0-based index `i`, zero beyond the end (a Go
`ReadAt` / `Read` into a zero-initialised buffer with the error ignored,
which is how `readNode` and the metadata reads behave). -/
def byteAt (f : List Nat) (i : Nat) : Nat := f.getD i 0

/-- The `n` bytes starting at 0-based index `i`, zero-padded. -/
def sliceBytes (f : List Nat) (i n : Nat) : List Nat :=
  (List.range n).map (fun k => byteAt f (i + k))

/-- Big-endian integer of the `n` bytes at 0-based index `i`. -/
def beRead (f : List Nat) (i n : Nat) : Nat :=
  (List.range n).foldl (fun acc k => acc * 256 + byteAt f (i + k)) 0

/-- `MMDBMetadata` of the source.  Strings are byte lists. -/
structure MMDBMetadata where
  NodeCount : Nat := 0
  RecordSize : Nat := 0
  IPVersion : Nat := 0
  DatabaseType : List Nat := []
  Languages : List (List Nat) := []
  BinaryFormatMajorVersion : Nat := 0
  BinaryFormatMinorVersion : Nat := 0
  BuildEpoch : Nat := 0
  DataSectionStart : Nat := 0
  deriving Repr, DecidableEq

/-- The 14-byte metadata marker `\xAB\xCD\xEF` + `"MaxMind.com"`. -/
def mmdbMarker : List Nat :=
  [171, 205, 239, 77, 97, 120, 77, 105, 110, 100, 46, 99, 111, 109]

/-- One iteration body's buffer scan in `readMetadata`: the first index
`i ≤ 4096 - 14` at which the marker occurs in the 4096-byte buffer read
at `offset`. -/
def scanBuf (f : List Nat) (offset : Nat) : Option Nat :=
  (List.range (4096 - 14 + 1)).find?
    (fun i => sliceBytes f (offset + i) 14 = mmdbMarker)

/-- The backward marker-search loop of `readMetadata`:
`for offset := fileSize - 14 - 131072; offset >= 0 && offset >= fileSize - 131072; offset--`.
Offsets are `int64`, modelled as `Int`; the fuel only bounds the
iteration count and is irrelevant because the loop condition fails at
entry for every file size. -/
def markerSearchLoop (f : List Nat) (fileSize : Int) :
    Nat → Int → Option Int
  | 0, _ => none
  | fuel + 1, offset =>
    if 0 ≤ offset ∧ fileSize - 131072 ≤ offset then
      match scanBuf f offset.toNat with
      | some i => some (offset + i + 14)
      | none => markerSearchLoop f fileSize fuel (offset - 1)
    else none

/-- The data-section start computed by the metadata decoder:
`uint32(NodeCount) * uint32(RecordSize) * 2` — note: the trie's size in
BITS, with no division by 8. -/
def metadataDataStart (nodeCount recordSize : Nat) : Nat :=
  nodeCount * recordSize * 2 % 2 ^ 32

/-- The language-list reader of `readMetadata`: `count` length-prefixed
strings starting at 0-based position `pos`. -/
def readLangs (f : List Nat) : Nat → Nat → List (List Nat) × Nat
  | 0, pos => ([], pos)
  | k + 1, pos =>
    let len := byteAt f pos
    let s := sliceBytes f (pos + 1) len
    let (rest, p) := readLangs f k (pos + 1 + len)
    (s :: rest, p)

/-- The field-by-field metadata parse that follows the marker: big-endian
major/minor version (2 bytes each) and build epoch (8 bytes), a
length-prefixed type string, a count-prefixed language list, record size
(2 bytes), node count (4 bytes), IP version (2 bytes); reads past the end
of the file yield zero bytes (the source ignores every read error here).
Returns the metadata together with the computed data-section start. -/
def parseMetadataAt (f : List Nat) (pos : Nat) : MMDBMetadata × Nat :=
  let major := beRead f pos 2
  let minor := beRead f (pos + 2) 2
  let epoch := beRead f (pos + 4) 8
  let typeLen := byteAt f (pos + 12)
  let dbType := sliceBytes f (pos + 13) typeLen
  let p1 := pos + 13 + typeLen
  let langCount := byteAt f p1
  let (langs, p2) := readLangs f langCount (p1 + 1)
  let recordSize := beRead f p2 2
  let nodeCount := beRead f (p2 + 2) 4
  let ipVersion := beRead f (p2 + 6) 2
  ({ NodeCount := nodeCount, RecordSize := recordSize, IPVersion := ipVersion,
     DatabaseType := dbType, Languages := langs,
     BinaryFormatMajorVersion := major, BinaryFormatMinorVersion := minor,
     BuildEpoch := epoch, DataSectionStart := metadataDataStart nodeCount recordSize },
   metadataDataStart nodeCount recordSize)

/-- `readMetadata` of the source: search backward for the marker within
the trailing window, then parse the metadata that follows it. -/
def readMetadata (f : List Nat) : Except String (MMDBMetadata × Nat) :=
  let fileSize : Int := f.length
  match markerSearchLoop f fileSize (f.length + 1) (fileSize - 14 - 131072) with
  | none => .error "metadata marker not found"
  | some off => .ok (parseMetadataAt f off.toNat)

/-- The reader state `OpenMMDB` builds on success. -/
structure MMDBReader where
  metadata : MMDBMetadata
  dataSection : List Nat
  deriving Repr, DecidableEq

/-- `OpenMMDB` of the source (file-system access aside): read the
metadata — wrapping its error — then load the data section prefix. -/
def OpenMMDB (f : List Nat) : Except String MMDBReader :=
  match readMetadata f with
  | .error e => .error ("failed to read metadata: " ++ e)
  | .ok (md, dataStart) =>
    let dataSize : Int :=
      if (dataStart : Int) - 128 < 0 then (f.length : Int) - dataStart
      else (dataStart : Int) - 128
    .ok { metadata := md, dataSection := sliceBytes f 0 dataSize.toNat }

/-- `readNode` of the source: read one child record of trie node
`nodeNum`.  The node's base offset is `nodeNum * RecordSize * 2` in
`uint32` arithmetic (the source applies no division by 8); the `ReadAt`
error is ignored, so bytes beyond the file read as zero.  A record size
other than 24/28/32 leaves the zero value. -/
def readNode (f : List Nat) (m : MMDBMetadata) (nodeNum : Nat)
    (right : Bool) : Nat :=
  let offset := nodeNum * m.RecordSize * 2 % 2 ^ 32
  if m.RecordSize = 24 then
    let off := if right then (offset + 3) % 2 ^ 32 else offset
    byteAt f off * 65536 + byteAt f (off + 1) * 256 + byteAt f (off + 2)
  else if m.RecordSize = 28 then
    let b0 := byteAt f offset
    let b1 := byteAt f (offset + 1)
    let b2 := byteAt f (offset + 2)
    let b3 := byteAt f (offset + 3)
    if right then b3 % 16 * 16777216 + b0 * 65536 + b1 * 256 + b2
    else b0 * 1048576 + b1 * 4096 + b2 * 16 + b3 / 16
  else if m.RecordSize = 32 then
    let off := if right then (offset + 4) % 2 ^ 32 else offset
    byteAt f off * 16777216 + byteAt f (off + 1) * 65536 +
      byteAt f (off + 2) * 256 + byteAt f (off + 3)
  else 0

/-- A parsed `net.IP` as consumed by `LookupIP`: `To4()` non-nil (32-bit
key, 32 iterations) or a full IPv6 address (128-bit key, 128 iterations). -/
inductive ParsedIP where
  | v4 (n : Nat)
  | v6 (n : Nat)
  deriving Repr, DecidableEq

def ipBitsOf : ParsedIP → Nat
  | .v4 _ => 32
  | .v6 _ => 128

def ipNumOf : ParsedIP → Nat
  | .v4 n => n
  | .v6 n => n

/-- The trie-walk loop of `LookupIP`: with `b` bits remaining, follow the
current address bit (`ipnum.Bit(b-1)`, most-significant first) while the
node number stays below `NodeCount`; leave the loop as soon as the node
number reaches `NodeCount` or the bits are exhausted. -/
def mmdbWalk (f : List Nat) (m : MMDBMetadata) (ipnum : Nat) :
    Nat → Nat → Nat
  | 0, node => node
  | b + 1, node =>
    if node < m.NodeCount then
      mmdbWalk f m ipnum b (readNode f m node (ipnum.testBit b))
    else node

/-- The lookup skeleton of `LookupIP`: walk the trie over the address
bits; a final node number of at least `NodeCount` is a leaf whose record
is decoded at data offset `node - NodeCount + DataSectionStart` (returned
here); otherwise the address is reported absent. -/
def LookupIPOffset (f : List Nat) (m : MMDBMetadata) (p : ParsedIP) :
    Except String Nat :=
  let node := mmdbWalk f m (ipNumOf p) (ipBitsOf p) 0
  if m.NodeCount ≤ node then
    .ok ((node - m.NodeCount + m.DataSectionStart) % 2 ^ 32)
  else .error "IP not found in database"

/-- A decoded self-describing value (`interface{}` in the source); `map`
entries are kept in decode order. -/
inductive MMDBValue where
  | str (v : List Nat)
  | dbl (bits : Nat)
  | bytes (v : List Nat)
  | u16 (v : Nat)
  | u32 (v : Nat)
  | map (entries : List (List Nat × Option MMDBValue))
  | arr (elems : List (Option MMDBValue))
  | bool (b : Bool)
  deriving Repr

/-- A sequential `file.Read` of `n` bytes at stream position `pos`:
errors only when the stream is already at the end (and `n > 0`); a short
read near the end pads the fresh buffer with zeros and is not an error,
exactly as the source's single `Read` calls behave. -/
def streamRead (f : List Nat) (pos n : Nat) :
    Except String (List Nat × Nat) :=
  if n = 0 then .ok ([], pos)
  else if pos < f.length then .ok (sliceBytes f pos n, min (pos + n) f.length)
  else .error "EOF"

/-- The control-byte parse shared by `decodeValue` and `decodeString`:
read the control byte, resolve an extended type tag (`typeByte + 7` in
`uint8` arithmetic), and extend sizes of 29 and above with 1–3 big-endian
size bytes offset by 28.  Returns `(typeNum, dataSize, next position)`. -/
def decodeCtrl (f : List Nat) (pos : Nat) :
    Except String (Nat × Nat × Nat) := do
  let (cb, p0) ← streamRead f pos 1
  let ctrl := byteAt cb 0
  let (typeNum, p1) ←
    if ctrl / 32 = 0 then do
      let (tb, p) ← streamRead f p0 1
      pure ((byteAt tb 0 + 7) % 256, p)
    else pure (ctrl / 32, p0)
  let size0 := ctrl % 32
  if 29 ≤ size0 then do
    let (sb, p2) ← streamRead f p1 (size0 - 28)
    pure (typeNum, sb.foldl (fun acc b => acc * 256 + b) 0 + 28, p2)
  else pure (typeNum, size0, p1)

/-- `decodeString` of the source: parse a control header and require the
string tag, then read the raw bytes. -/
def decodeString (f : List Nat) (pos : Nat) :
    Except String (List Nat × Nat) :=
  match decodeCtrl f pos with
  | .error e => .error e
  | .ok (typeNum, size, p) =>
    if typeNum = 2 then streamRead f p size
    else .error "expected string type"

/-- `decodeValue` of the source, with fuel bounding the recursion depth
(`map` and `array` recurse; Go's recursion has no such bound).  Tags not
in {2,3,4,5,6,7,8,14} fall to the default branch, which skips `size`
bytes with the read error ignored and yields an absent value (`none`)
without error. -/
def decodeValue (f : List Nat) : Nat → Nat →
    Except String (Option MMDBValue × Nat)
  | 0, _ => .error "out of fuel"
  | fuel + 1, pos =>
    match decodeCtrl f pos with
    | .error e => .error e
    | .ok (typeNum, size, p) =>
    match typeNum with
    | 2 => do
      let (s, p1) ← streamRead f p size
      pure (some (.str s), p1)
    | 3 =>
      if size ≠ 8 then .error "invalid double size"
      else do
        let (b, p1) ← streamRead f p 8
        pure (some (.dbl (b.foldl (fun acc v => acc * 256 + v) 0)), p1)
    | 4 => do
      let (b, p1) ← streamRead f p size
      pure (some (.bytes b), p1)
    | 5 =>
      if size ≠ 2 then .error "invalid uint16 size"
      else do
        let (b, p1) ← streamRead f p 2
        pure (some (.u16 (b.foldl (fun acc v => acc * 256 + v) 0)), p1)
    | 6 =>
      if size ≠ 4 then .error "invalid uint32 size"
      else do
        let (b, p1) ← streamRead f p 4
        pure (some (.u32 (b.foldl (fun acc v => acc * 256 + v) 0)), p1)
    | 7 => do
      let st ← (List.range size).foldlM
        (fun (st : List (List Nat × Option MMDBValue) × Nat) _ => do
          let (k, p1) ← decodeString f st.2
          let (v, p2) ← decodeValue f fuel p1
          pure (st.1 ++ [(k, v)], p2))
        (([], p) : List (List Nat × Option MMDBValue) × Nat)
      pure (some (.map st.1), st.2)
    | 8 => do
      let st ← (List.range size).foldlM
        (fun (st : List (Option MMDBValue) × Nat) _ => do
          let (v, p2) ← decodeValue f fuel st.2
          pure (st.1 ++ [v], p2))
        (([], p) : List (Option MMDBValue) × Nat)
      pure (some (.arr st.1), st.2)
    | 14 => pure (some (.bool (size ≠ 0)), p)
    | _ => pure (none, min (p + size) f.length)

end MMDB

namespace IP2L

/-- The metadata `readHeader` yields on any file of at least 29 bytes,
spelled out field by field. -/
def headerMeta (f : List Nat) : Ip2Meta :=
  { databasetype := byteAt f 0, databasecolumn := byteAt f 1,
    databaseyear := byteAt f 2, databasemonth := byteAt f 3,
    databaseday := byteAt f 4,
    ipv4databasecount := leU32 f 5, ipv4databaseaddr := leU32 f 9,
    ipv6databasecount := leU32 f 13, ipv6databaseaddr := leU32 f 17,
    ipv4indexbaseaddr := leU32 f 21, ipv6indexbaseaddr := leU32 f 25,
    ipv4columnsize := byteAt f 1 * 4 % 256,
    ipv6columnsize := (16 + (byteAt f 1 + 255) % 256 * 4 % 256) % 256 }

end IP2L

/-- Synthetic Format-B fixture: type 0, one column, one IPv4 row
`[0, 10)`, with range-start keys 0, 10, 20 stored from offset 29. -/
def cfileB : List Nat :=
  [0, 1, 0, 0, 0,
   1, 0, 0, 0,
   30, 0, 0, 0,
   0, 0, 0, 0,
   0, 0, 0, 0,
   0, 0, 0, 0,
   0, 0, 0, 0,
   0, 0, 0, 0,
   10, 0, 0, 0,
   20, 0, 0, 0]

/-- The metadata of `cfileB`. -/
def cmetaB : IP2L.Ip2Meta :=
  { databasetype := 0, databasecolumn := 1,
    ipv4databasecount := 1, ipv4databaseaddr := 30,
    ipv4columnsize := 4, ipv6columnsize := 16 }

/-- Synthetic Format-B fixture for the binary-search claim: type 0, one
column, four IPv4 rows `[0,100) [100,200) [200,300) [300, 4294967295)`
(range-start keys 0, 100, 200, 300 and the sentinel 4294967295). -/
def cfileB5 : List Nat :=
  [0, 1, 0, 0, 0,
   4, 0, 0, 0,
   30, 0, 0, 0,
   0, 0, 0, 0,
   0, 0, 0, 0,
   0, 0, 0, 0,
   0, 0, 0, 0,
   0, 0, 0, 0,
   100, 0, 0, 0,
   200, 0, 0, 0,
   44, 1, 0, 0,
   255, 255, 255, 255]

/-- The metadata of `cfileB5`. -/
def cmetaB5 : IP2L.Ip2Meta :=
  { databasetype := 0, databasecolumn := 1,
    ipv4databasecount := 4, ipv4databaseaddr := 30,
    ipv4columnsize := 4, ipv6columnsize := 16 }

/-- Synthetic Format-B fixture of type 1 (country only): two columns,
one IPv4 row `[0, 4294967295)` whose country pointer (41) leads to the
length-prefixed strings `"US"` at offsets 41 and 44. -/
def cfileB7 : List Nat :=
  [1, 2, 0, 0, 0,
   1, 0, 0, 0,
   30, 0, 0, 0,
   0, 0, 0, 0,
   0, 0, 0, 0,
   0, 0, 0, 0,
   0, 0, 0, 0,
   0, 0, 0, 0,
   41, 0, 0, 0,
   255, 255, 255, 255,
   2, 85, 83,
   2, 85, 83]

/-- The metadata of `cfileB7`. -/
def cmetaB7 : IP2L.Ip2Meta :=
  { databasetype := 1, databasecolumn := 2,
    ipv4databasecount := 1, ipv4databaseaddr := 30,
    ipv4columnsize := 8, ipv6columnsize := 20 }

/-- The record a lookup in `cfileB7` produces: short and long country
name `"US"`, every other field at its zero value. -/
def crecB7 : IP2L.IP2Locationrecord :=
  { Country_short := [85, 83], Country_long := [85, 83] }

/-- A 29-byte header whose first byte (database type) is 25. -/
def cfile25 : List Nat := 25 :: List.replicate 28 0

/-- Format-A fixture for the node-offset claim: a 24-bit-record file
whose 3-byte big-endian values at offsets 6/9 (the byte-size node
layout) differ from those at offsets 48/51 (the offsets the code reads). -/
def cfileA3 : List Nat :=
  [0, 0, 0, 0, 0, 0,
   0, 0, 2,
   0, 0, 3,
   0, 0, 0, 0, 0, 0, 0, 0, 0, 0, 0, 0, 0, 0, 0, 0, 0, 0, 0, 0, 0, 0,
   0, 0, 0, 0, 0, 0, 0, 0, 0, 0, 0, 0, 0, 0,
   0, 0, 1,
   0, 0, 5]

/-- Format-A metadata with record size 24 and a node count that keeps
node 1 an interior node. -/
def cmetaA24 : MMDB.MMDBMetadata := { RecordSize := 24, NodeCount := 500 }

/-- A hand-built Format-A metadata block: version 2.0, epoch 0, empty
type string, no languages, record size 24, node count 1, IP version 4. -/
def cmetaBuf : List Nat :=
  [0, 2, 0, 0, 0, 0, 0, 0, 0, 0, 0, 0, 0, 0, 0, 24, 0, 0, 0, 1, 0, 4]

/-- Format-A fixture for the trie-walk claim: node 0's left record is 1,
which equals the node count, so the first step reaches a leaf. -/
def cfileA9 : List Nat := [0, 0, 1] ++ List.replicate 61 0

/-- Format-A metadata for `cfileA9`: one node, data section at 100. -/
def cmetaA9 : MMDB.MMDBMetadata :=
  { RecordSize := 24, NodeCount := 1, DataSectionStart := 100 }

/-- The 6to4 address `2002:0808:0808::` (embedding the IPv4 address
`8.8.8.8`) as a 128-bit integer. -/
def c6to4addr : Nat := 0x2002 * 2 ^ 112 + 0x08080808 * 2 ^ 80

/-- The Teredo address `2001:0000::f7f7:f7f7` (whose complemented low 32
bits embed the IPv4 address `8.8.8.8`) as a 128-bit integer. -/
def cteredoaddr : Nat := 0x20010000 * 2 ^ 96 + 0xF7F7F7F7

/-- Claim C1: for every input file, the backward marker search of
`readMetadata` starts at `fileSize - 14 - 131072`, strictly below the
loop's lower bound `fileSize - 131072`, so the loop body never runs, the
marker is never found even if present, `readMetadata` returns the
metadata-marker-not-found error, and `OpenMMDB` propagates it. -/
theorem C1_openMMDB_always_fails (f : List Nat) :
    MMDB.readMetadata f = .error "metadata marker not found" ∧
    MMDB.OpenMMDB f =
      .error ("failed to read metadata: " ++ "metadata marker not found") := by
  have hcond :
      ¬ (0 ≤ (f.length : Int) - 14 - 131072 ∧
        (f.length : Int) - 131072 ≤ (f.length : Int) - 14 - 131072) := by
    omega
  have h : MMDB.readMetadata f = .error "metadata marker not found" := by
    unfold MMDB.readMetadata
    simp [MMDB.markerSearchLoop, hcond]
  refine ⟨h, ?_⟩
  unfold MMDB.OpenMMDB
  rw [h]

/-- Claim C3 (code bug): the spec says a 24-bit-record trie stores node
`n`'s left child as a 3-byte big-endian value at byte offset `n * 6` and
the right child at `n * 6 + 3`, but `readNode` computes the base offset
as `n * record_size * 2` — bit-size units, with no division by 8 — so for
node 1 it reads bytes 48..50 / 51..53 instead of 6..8 / 9..11.  On
`cfileA3` the code yields 1 and 5 while the offsets the claim names hold
2 and 3. -/
theorem C3_readNode_offset_bug :
    MMDB.readNode cfileA3 cmetaA24 1 false = 1 ∧
    MMDB.readNode cfileA3 cmetaA24 1 true = 5 ∧
    MMDB.beRead cfileA3 (1 * 6) 3 = 2 ∧
    MMDB.beRead cfileA3 (1 * 6 + 3) 3 = 3 ∧
    1 * cmetaA24.RecordSize * 2 / 8 = 6 ∧
    1 * cmetaA24.RecordSize * 2 % 2 ^ 32 = 48 := by
  refine ⟨rfl, rfl, by decide, by decide, rfl, rfl⟩

/-- Claim C4 (code bug): the spec says the metadata decoder computes the
data-section start as `node_count * record_size * 2 / 8` (the trie's byte
size), but `metadataDataStart` — the expression assigned in
`readMetadata` — omits the division by 8: for node count 1 and record
size 24 it yields 48, the bit size, where the claim requires 6. -/
theorem C4_metadata_dataStart_bug :
    MMDB.metadataDataStart 1 24 = 48 ∧
    (MMDB.parseMetadataAt cmetaBuf 0).2 = 48 ∧
    (MMDB.parseMetadataAt cmetaBuf 0).1.NodeCount = 1 ∧
    (MMDB.parseMetadataAt cmetaBuf 0).1.RecordSize = 24 ∧
    1 * 24 * 2 / 8 = 6 ∧ (48 : Nat) ≠ 6 := by
  refine ⟨rfl, rfl, rfl, rfl, rfl, by decide⟩

/-- Claim C5: on the synthetic 4-row table `cfileB5` with contiguous
ranges `[0,100) [100,200) [200,300) [300, MAX]`, the binary-search loop of
`query` resolves keys 0, 99, 100, 299, 300 to rows 0, 0, 1, 2, 3; the
table's maximum representable address 4294967295 is first decremented to
4294967294 by `adjustKey` and then also resolves to the last row, and the
full `query` on it succeeds. -/
theorem C5_binary_search_rows :
    IP2L.queryLoop cfileB5 4 0 4 30 64 0 4 = some (.ok (some 0)) ∧
    IP2L.queryLoop cfileB5 4 99 4 30 64 0 4 = some (.ok (some 0)) ∧
    IP2L.queryLoop cfileB5 4 100 4 30 64 0 4 = some (.ok (some 1)) ∧
    IP2L.queryLoop cfileB5 4 299 4 30 64 0 4 = some (.ok (some 2)) ∧
    IP2L.queryLoop cfileB5 4 300 4 30 64 0 4 = some (.ok (some 3)) ∧
    IP2L.adjustKey IP2L.max_ipv4_range 4294967295 = 4294967294 ∧
    IP2L.queryLoop cfileB5 4 (IP2L.adjustKey IP2L.max_ipv4_range 4294967295)
      4 30 64 0 4 = some (.ok (some 3)) ∧
    IP2L.query (IP2L.mkDB cmetaB5) cfileB5 (some (.v4 4294967295)) IP2L.all
      (fun _ => 0) 64 = some (.ok IP2L.emptyRecord) := by
  exact ⟨rfl, rfl, rfl, rfl, rfl, rfl, rfl, rfl⟩

/-- Claim C8: whenever the control header resolves to a type tag outside
{2,3,4,5,6,7,8,14} and the declared size fits in the file, `decodeValue`
consumes exactly the declared size bytes past the header and yields an
absent value (`none`) with no error. -/
theorem C8_unknown_tag_skipped (f : List Nat) (pos fuel t sz p : Nat)
    (hc : MMDB.decodeCtrl f pos = .ok (t, sz, p))
    (ht : t ∉ ([2, 3, 4, 5, 6, 7, 8, 14] : List Nat))
    (hsz : p + sz ≤ f.length) :
    MMDB.decodeValue f (fuel + 1) pos = .ok (none, p + sz) := by
  unfold MMDB.decodeValue
  rw [hc]
  simp only [List.mem_cons, List.mem_singleton, not_or] at ht
  obtain ⟨h2, h3, h4, h5, h6, h7, h8, h14⟩ := ht
  have hmin : min (p + sz) f.length = p + sz := Nat.min_eq_left hsz
  rcases t with _ | _ | _ | _ | _ | _ | _ | _ | _ | _ | _ | _ | _ | _ | _ | t <;>
    simp_all [pure, Except.pure, hmin]

/-- Witness for C8 at the concrete stream `[33, 9]`: control byte 33 is
type tag 1 (the pointer type the decoder does not model) with size 1. -/
theorem C8_witness :
    MMDB.decodeCtrl [33, 9] 0 = .ok (1, 1, 1) ∧
    (1 : Nat) ∉ ([2, 3, 4, 5, 6, 7, 8, 14] : List Nat) ∧
    1 + 1 ≤ ([33, 9] : List Nat).length ∧
    MMDB.decodeValue [33, 9] 5 0 = .ok (none, 1 + 1) :=
  ⟨rfl, by decide, by decide,
    C8_unknown_tag_skipped [33, 9] 0 4 1 1 1 rfl (by decide) (by decide)⟩

/-- Claim C9: during a Format-A lookup the trie walk stops as soon as the
node number reaches `NodeCount` (walking from any such node is the
identity), a leaf resolves to the data offset
`node - NodeCount + DataSectionStart`, and exhausting all address bits
(32 for an IPv4 key, 128 for an IPv6 key, per `ipBitsOf`) below
`NodeCount` yields the not-found error. -/
theorem C9_trie_walk (f : List Nat) (m : MMDB.MMDBMetadata)
    (p : MMDB.ParsedIP) :
    (MMDB.LookupIPOffset f m p =
      if m.NodeCount ≤ MMDB.mmdbWalk f m (MMDB.ipNumOf p) (MMDB.ipBitsOf p) 0 then
        .ok ((MMDB.mmdbWalk f m (MMDB.ipNumOf p) (MMDB.ipBitsOf p) 0 -
          m.NodeCount + m.DataSectionStart) % 2 ^ 32)
      else .error "IP not found in database") ∧
    (∀ b node, m.NodeCount ≤ node →
      MMDB.mmdbWalk f m (MMDB.ipNumOf p) b node = node) := by
  constructor
  · rfl
  · intro b node h
    cases b with
    | zero => rfl
    | succ b => simp [MMDB.mmdbWalk, Nat.not_lt.2 h]

/-- Witness for C9: on `cfileA9` the first step reaches the leaf 1 and
resolves to data offset 100; on an all-zero trie the walk exhausts all 32
bits at node 0 and reports not found; walking from node 3 (≥ NodeCount)
is the identity. -/
theorem C9_witness :
    MMDB.LookupIPOffset cfileA9 cmetaA9 (.v4 0) = .ok 100 ∧
    MMDB.LookupIPOffset (List.replicate 6 0) cmetaA9 (.v4 0) =
      .error "IP not found in database" ∧
    cmetaA9.NodeCount ≤ 3 ∧
    MMDB.mmdbWalk cfileA9 cmetaA9 0 7 3 = 3 :=
  ⟨rfl, rfl, by decide, (C9_trie_walk cfileA9 cmetaA9 (.v4 0)).2 7 3 (by decide)⟩

/-- A successful `readuint8` returns the byte at `pos - 1`. -/
theorem readuint8_ok (f : List Nat) (pos : Nat) (h0 : pos ≠ 0)
    (h1 : pos - 1 < f.length) :
    IP2L.readuint8 f pos = .ok (IP2L.byteAt f (pos - 1)) := by
  simp [IP2L.readuint8, h0, h1]

/-- A successful `readuint32` returns the little-endian word at `pos - 1`. -/
theorem readuint32_ok (f : List Nat) (pos : Nat) (h0 : pos ≠ 0)
    (h1 : pos - 1 + 4 ≤ f.length) :
    IP2L.readuint32 f pos = .ok (IP2L.leU32 f (pos - 1)) := by
  simp [IP2L.readuint32, h0, h1]

/-- On any file of at least 29 bytes the header parse of `OpenDB`
succeeds and produces `headerMeta`. -/
theorem readHeader_eq (f : List Nat) (h : 29 ≤ f.length) :
    IP2L.readHeader f = .ok (IP2L.headerMeta f) := by
  simp only [IP2L.readHeader,
    readuint8_ok f 1 (by omega) (by omega),
    readuint8_ok f 2 (by omega) (by omega),
    readuint8_ok f 3 (by omega) (by omega),
    readuint8_ok f 4 (by omega) (by omega),
    readuint8_ok f 5 (by omega) (by omega),
    readuint32_ok f 6 (by omega) (by omega),
    readuint32_ok f 10 (by omega) (by omega),
    readuint32_ok f 14 (by omega) (by omega),
    readuint32_ok f 18 (by omega) (by omega),
    readuint32_ok f 22 (by omega) (by omega),
    readuint32_ok f 26 (by omega) (by omega)]
  rfl

/-- Claim C10: `OpenDB` indexes the 25-entry position tables directly
with the database-type byte (the file's first byte) without a bounds
check: whenever the header is readable and that byte is 25 or more, the
table access is out of bounds — a panic in the total embedding — and the
non-panic outcomes arise only under the guard `databasetype < 25`. -/
theorem C10_opendb_panic (f : List Nat) :
    (29 ≤ f.length → 25 ≤ IP2L.byteAt f 0 → IP2L.OpenDB f = .panic) ∧
    (∀ m, IP2L.readHeader f = .ok m → m.databasetype < 25 →
      IP2L.OpenDB f ≠ .panic) := by
  constructor
  · intro hlen hb
    unfold IP2L.OpenDB
    rw [readHeader_eq f hlen]
    have hn : ¬ (IP2L.headerMeta f).databasetype < 25 := by
      simp only [IP2L.headerMeta]
      omega
    simp [hn]
  · intro m hm hlt
    unfold IP2L.OpenDB
    rw [hm]
    simp [hlt]

/-- Witness for C10: the 29-byte header `cfile25` (first byte 25) makes
`OpenDB` panic, while on `cfileB` (type byte 0) it opens successfully. -/
theorem C10_witness :
    29 ≤ cfile25.length ∧ 25 ≤ IP2L.byteAt cfile25 0 ∧
    IP2L.OpenDB cfile25 = .panic ∧
    IP2L.readHeader cfileB = .ok cmetaB ∧ cmetaB.databasetype < 25 ∧
    IP2L.OpenDB cfileB ≠ .panic :=
  ⟨by decide, by decide,
    (C10_opendb_panic cfile25).1 (by decide) (by decide),
    rfl, by decide,
    (C10_opendb_panic cfileB).2 cmetaB rfl (by decide)⟩

/-- Claim C6: for every 6to4 address (`2002::/16`) and every Teredo
address (`2001:0000::/32`), `checkip` classifies the address as IPv4 and
derives the same 32-bit key as classifying the embedded bare IPv4
address: the 128-bit value shifted right by 80 bits and masked to 32 bits
for 6to4, and the complemented low 32 bits for Teredo. -/
theorem C6_6to4_teredo_keys (d : IP2L.DB) (n : Nat) :
    (IP2L.from_6to4 ≤ n → n ≤ IP2L.to_6to4 →
      (IP2L.checkip d (some (.v6 n))).iptype = 4 ∧
      (IP2L.checkip d (some (.v6 n))).ipnum =
        (IP2L.checkip d (some (.v4 (n / 2 ^ 80 % 2 ^ 32)))).ipnum) ∧
    (IP2L.from_teredo ≤ n → n ≤ IP2L.to_teredo →
      (IP2L.checkip d (some (.v6 n))).iptype = 4 ∧
      (IP2L.checkip d (some (.v6 n))).ipnum =
        (IP2L.checkip d (some (.v4 ((2 ^ 32 - 1) - n % 2 ^ 32)))).ipnum) := by
  constructor
  · intro hl hr
    have hnm : ¬ (IP2L.from_v4mapped ≤ n ∧ n ≤ IP2L.to_v4mapped) := by
      simp only [IP2L.from_v4mapped, IP2L.to_v4mapped]
      simp only [IP2L.from_6to4] at hl
      omega
    have h64 : IP2L.from_6to4 ≤ n ∧ n ≤ IP2L.to_6to4 := ⟨hl, hr⟩
    unfold IP2L.checkip
    simp only [if_neg hnm, if_pos h64]
    by_cases hidx : 0 < d.meta.ipv4indexbaseaddr <;> simp [hidx]
  · intro hl hr
    have hnm : ¬ (IP2L.from_v4mapped ≤ n ∧ n ≤ IP2L.to_v4mapped) := by
      simp only [IP2L.from_v4mapped, IP2L.to_v4mapped]
      simp only [IP2L.from_teredo] at hl
      omega
    have hn64 : ¬ (IP2L.from_6to4 ≤ n ∧ n ≤ IP2L.to_6to4) := by
      simp only [IP2L.from_6to4]
      simp only [IP2L.to_teredo] at hr
      omega
    have htd : IP2L.from_teredo ≤ n ∧ n ≤ IP2L.to_teredo := ⟨hl, hr⟩
    unfold IP2L.checkip
    simp only [if_neg hnm, if_neg hn64, if_pos htd]
    by_cases hidx : 0 < d.meta.ipv4indexbaseaddr <;> simp [hidx]

/-- Witness for C6 at the concrete 6to4 address `2002:0808:0808::` and
Teredo address `2001::f7f7:f7f7`, both embedding `8.8.8.8`
(key 134744072). -/
theorem C6_witness :
    (IP2L.from_6to4 ≤ c6to4addr ∧ c6to4addr ≤ IP2L.to_6to4 ∧
      (IP2L.checkip (IP2L.mkDB cmetaB) (some (.v6 c6to4addr))).iptype = 4 ∧
      (IP2L.checkip (IP2L.mkDB cmetaB) (some (.v6 c6to4addr))).ipnum =
        (IP2L.checkip (IP2L.mkDB cmetaB)
          (some (.v4 (c6to4addr / 2 ^ 80 % 2 ^ 32)))).ipnum) ∧
    (IP2L.from_teredo ≤ cteredoaddr ∧ cteredoaddr ≤ IP2L.to_teredo ∧
      (IP2L.checkip (IP2L.mkDB cmetaB) (some (.v6 cteredoaddr))).iptype = 4 ∧
      (IP2L.checkip (IP2L.mkDB cmetaB) (some (.v6 cteredoaddr))).ipnum =
        (IP2L.checkip (IP2L.mkDB cmetaB)
          (some (.v4 ((2 ^ 32 - 1) - cteredoaddr % 2 ^ 32)))).ipnum) :=
  ⟨⟨by decide, by decide,
    (C6_6to4_teredo_keys (IP2L.mkDB cmetaB) c6to4addr).1 (by decide) (by decide)⟩,
   ⟨by decide, by decide,
    (C6_6to4_teredo_keys (IP2L.mkDB cmetaB) cteredoaddr).2 (by decide) (by decide)⟩⟩

/-- Counterexample to claim C2: on the opened Format-B database
`cfileB` (one row `[0,10)` plus range keys 10, 20) the well-formed key 50
exhausts the binary-search window, yet `Get_all`/`query` return a
SUCCESSFUL empty record (`Except.ok`), not a NotFound error as the claim
states. -/
theorem C2_counterexample :
    IP2L.Get_all (IP2L.mkDB cmetaB) cfileB (some (.v4 50)) (fun _ => 0) 8 =
      some (.ok IP2L.emptyRecord) := rfl

/-- Claim C2 as amended: if the binary search exhausts its `[low, high]`
window without finding a containing range, `query` returns the
default-valued empty record with a nil error — a successful outcome —
rather than any error. -/
theorem C2_amended_exhaust_returns_empty (d : IP2L.DB) (f : List Nat)
    (p : Option IP2L.ParsedIP) (mode : Nat) (pf : List Nat → Nat)
    (fuel low0 high1 : Nat)
    (hmeta : d.metaok = true)
    (hip : (IP2L.checkip d p).iptype ≠ 0)
    (hwin : IP2L.indexWindow f (IP2L.checkip d p).ipindex
      (IP2L.selectParams d (IP2L.checkip d p).iptype).2.1 = .ok (low0, high1))
    (hloop : IP2L.queryLoop f (IP2L.checkip d p).iptype
      (IP2L.adjustKey (IP2L.selectParams d (IP2L.checkip d p).iptype).2.2.1
        (IP2L.checkip d p).ipnum)
      (IP2L.selectParams d (IP2L.checkip d p).iptype).2.2.2
      (IP2L.selectParams d (IP2L.checkip d p).iptype).1 fuel low0 high1 =
      some (.ok none)) :
    IP2L.query d f p mode pf fuel = some (.ok IP2L.emptyRecord) := by
  unfold IP2L.query
  simp only [hmeta, hip, hwin, hloop]
  simp

/-- Witness for the amended C2 at the concrete database `cfileB` and key
50 (beyond every range): the loop exhausts and `query` returns the empty
record successfully. -/
theorem C2_amended_witness :
    (IP2L.mkDB cmetaB).metaok = true ∧
    (IP2L.checkip (IP2L.mkDB cmetaB) (some (.v4 50))).iptype ≠ 0 ∧
    IP2L.queryLoop cfileB 4 50 4 30 8 0 1 = some (.ok none) ∧
    IP2L.query (IP2L.mkDB cmetaB) cfileB (some (.v4 50)) IP2L.all
      (fun _ => 0) 8 = some (.ok IP2L.emptyRecord) :=
  ⟨rfl, by decide, rfl,
    C2_amended_exhaust_returns_empty (IP2L.mkDB cmetaB) cfileB
      (some (.v4 50)) IP2L.all (fun _ => 0) 8 0 1 rfl (by decide) rfl rfl⟩

/-- Binding a successful `Except` computation applies the continuation. -/
theorem except_bind_ok {a b : Type} (x : a) (k : a → Except String b) :
    (Except.ok x >>= k) = k x := rfl

/-- Binding a failed `Except` computation propagates the error. -/
theorem except_bind_error {a b : Type} (e : String)
    (k : a → Except String b) :
    ((Except.error e : Except String a) >>= k) = Except.error e := rfl

/-- Mapping over a successful `Except` computation. -/
theorem except_map_ok {a b : Type} (g : a → b) (x : a) :
    (g <$> (Except.ok x : Except String a)) = Except.ok (g x) := rfl

/-- Mapping over a failed `Except` computation. -/
theorem except_map_error {a b : Type} (g : a → b) (e : String) :
    (g <$> (Except.error e : Except String a)) =
      (Except.error e : Except String b) := rfl

/-- `pure` of the `Except` monad is `Except.ok`. -/
theorem except_pure_eq {a : Type} (x : a) :
    (pure x : Except String a) = Except.ok x := rfl

/-- Storing one field leaves every other field of the record unchanged. -/
theorem getField_applyField_ne (x : IP2L.IP2Locationrecord)
    (e fld : IP2L.Field) (v : IP2L.FieldVal) (h : e ≠ fld) :
    IP2L.getField (IP2L.applyField x e v) fld = IP2L.getField x fld := by
  cases e <;> cases fld <;>
    first
    | exact absurd rfl h
    | (cases v <;> rfl)

/-- A disabled field never passes its decoding guard in `query`. -/
theorem fieldGuard_false_of_disabled (d : IP2L.DB) (mode : Nat)
    (fld : IP2L.Field) (h : IP2L.enabledOf d fld = false) :
    IP2L.fieldGuard d mode fld = false := by
  cases fld <;> simp_all [IP2L.enabledOf, IP2L.fieldGuard]

/-- `OpenDB` disables exactly the fields whose position-table cell is
zero for the database type. -/
theorem mkDB_enabled_false (m : IP2L.Ip2Meta) (fld : IP2L.Field)
    (h : (IP2L.positionTableOf fld).getD m.databasetype 0 = 0) :
    IP2L.enabledOf (IP2L.mkDB m) fld = false := by
  cases fld <;> simp_all [IP2L.mkDB, IP2L.enabledOf, IP2L.positionTableOf]

/-- The field-decoding fold of `query` leaves a field whose guard is
false untouched: if it succeeds, that field keeps its starting value. -/
theorem foldlM_fields_preserve (d : IP2L.DB) (f row : List Nat)
    (mode : Nat) (pf : List Nat → Nat) (fld : IP2L.Field)
    (hg : IP2L.fieldGuard d mode fld = false) :
    ∀ (L : List IP2L.Field) (x0 y : IP2L.IP2Locationrecord),
      L.foldlM (fun x e =>
        if IP2L.fieldGuard d mode e then do
          let v ← IP2L.fieldRead d f row pf e
          pure (IP2L.applyField x e v)
        else pure x) x0 = .ok y →
      IP2L.getField y fld = IP2L.getField x0 fld := by
  intro L
  induction L with
  | nil =>
    intro x0 y h
    simp only [List.foldlM_nil, except_pure_eq, Except.ok.injEq] at h
    rw [h]
  | cons e L ih =>
    intro x0 y h
    rw [List.foldlM_cons] at h
    by_cases hge : IP2L.fieldGuard d mode e
    · rw [if_pos hge] at h
      cases hr : IP2L.fieldRead d f row pf e with
      | error er =>
        simp only [hr, except_map_error, except_bind_error] at h
        exact Except.noConfusion h
      | ok v =>
        simp only [hr, except_map_ok, except_bind_ok, except_pure_eq] at h
        by_cases he : e = fld
        · subst he
          rw [hg] at hge
          cases hge
        · have h2 := ih (IP2L.applyField x0 e v) y h
          rw [h2, getField_applyField_ne x0 e fld v he]
    · rw [if_neg hge] at h
      simp only [except_pure_eq, except_bind_ok] at h
      exact ih x0 y h

/-- Claim C7: for every database type and every lookup that returns a
record, a field whose cell in the static per-type position table is zero
(a disabled field) comes back as the zero value — empty byte-string, or
zero float bits — with no error; only fields with a non-zero cell are
decoded from the row. -/
theorem C7_disabled_fields_default (file : List Nat) (db : IP2L.DB)
    (p : Option IP2L.ParsedIP) (mode : Nat) (pf : List Nat → Nat)
    (fuel : Nat) (fld : IP2L.Field) (rec : IP2L.IP2Locationrecord)
    (hopen : IP2L.OpenDB file = .ok db)
    (hcell : (IP2L.positionTableOf fld).getD db.meta.databasetype 0 = 0)
    (hq : IP2L.query db file p mode pf fuel = some (.ok rec)) :
    IP2L.getField rec fld = IP2L.getField IP2L.emptyRecord fld := by
  have hdb : ∃ m, db = IP2L.mkDB m := by
    unfold IP2L.OpenDB at hopen
    split at hopen
    · exact IP2L.OpenResult.noConfusion hopen
    · split at hopen
      · injection hopen with h
        exact ⟨_, h.symm⟩
      · exact IP2L.OpenResult.noConfusion hopen
  obtain ⟨m, rfl⟩ := hdb
  have hdis : IP2L.enabledOf (IP2L.mkDB m) fld = false :=
    mkDB_enabled_false m fld hcell
  have hg : IP2L.fieldGuard (IP2L.mkDB m) mode fld = false :=
    fieldGuard_false_of_disabled _ mode fld hdis
  simp only [IP2L.query] at hq
  split at hq
  · exact Option.noConfusion hq (fun h => Except.noConfusion h)
  · split at hq
    · exact Option.noConfusion hq (fun h => Except.noConfusion h)
    · split at hq
      · exact Option.noConfusion hq (fun h => Except.noConfusion h)
      · split at hq
        · exact Option.noConfusion hq
        · exact Option.noConfusion hq (fun h => Except.noConfusion h)
        · injection hq with h1
          injection h1 with h2
          rw [← h2]
        · split at hq
          · exact Option.noConfusion hq (fun h => Except.noConfusion h)
          · split at hq
            · exact Option.noConfusion hq (fun h => Except.noConfusion h)
            · injection hq with h1
              injection h1 with h2
              subst h2
              rename_i hfields
              unfold IP2L.readRecordFields at hfields
              exact foldlM_fields_preserve _ file _ mode pf fld hg
                IP2L.fieldOrder IP2L.emptyRecord _ hfields

/-- Witness for C7 on the type-1 database `cfileB7`: the lookup decodes
the enabled country fields to `"US"` while the disabled region field
(table cell 0 for type 1) comes back as the empty value. -/
theorem C7_witness :
    IP2L.OpenDB cfileB7 = .ok (IP2L.mkDB cmetaB7) ∧
    (IP2L.positionTableOf .region).getD
      (IP2L.mkDB cmetaB7).meta.databasetype 0 = 0 ∧
    IP2L.query (IP2L.mkDB cmetaB7) cfileB7 (some (.v4 50)) IP2L.all
      (fun _ => 0) 64 = some (.ok crecB7) ∧
    IP2L.getField crecB7 .region = IP2L.getField IP2L.emptyRecord .region :=
  ⟨rfl, by decide, rfl,
    C7_disabled_fields_default cfileB7 (IP2L.mkDB cmetaB7) (some (.v4 50))
      IP2L.all (fun _ => 0) 64 .region crecB7 rfl (by decide) rfl⟩
